import Mathlib

/-!
Shallow embedding of the dz_smarthome Alexa smart-home skill:
`AlexaSmartHome.py` (directive router, capability model, envelope builder)
and `DomoticzHandler.py` (backend adapter).  Python floats are modelled as
rationals, Python dicts as structures with optional fields, and raised
exceptions as `Except PyErr`.  Backend mutations are recorded as a trace of
`BackendCall` values: the calls an endpoint makes into the Domoticz handler.
-/

namespace DzSmartHome

/-- Python exceptions the embedded code can raise. -/
inductive PyErr where
  | keyError
  | attrError
  | valueError
  | typeError
  | nameError
  | unknownEndpointType
  deriving DecidableEq, Repr

/-- Truncation toward zero, as the Python builtin int applied to a float. -/
def pyInt (q : ℚ) : Int := Int.tdiv q.num q.den

/-- Python negative-index aware list access, as used by names[idx]. -/
def pyIndex (l : List String) (i : Int) : Option String :=
  if 0 ≤ i then l.get? i.toNat
  else if (-i).toNat ≤ l.length then l.get? (l.length - (-i).toNat) else none

/-- Helper of pySplit, by structural recursion on the character list so
that concrete instances reduce definitionally. -/
def splitCharAux (sep : Char) : List Char → List Char → List (List Char)
  | [], acc => [acc.reverse]
  | c :: cs, acc =>
    if c = sep then acc.reverse :: splitCharAux sep cs []
    else splitCharAux sep cs (c :: acc)

/-- Python str.split with a one-character separator: an empty string gives
a singleton list holding the empty string. -/
def pySplit (s : String) (sep : Char) : List String :=
  (splitCharAux sep s.data []).map String.mk

/-- Python str.upper on ascii content. -/
def pyUpper (s : String) : String := ⟨s.data.map Char.toUpper⟩

/-- Python str.startswith. -/
def pyStartsWith (s pre : String) : Bool := pre.data.isPrefixOf s.data

/-- Values that appear as Alexa property values: strings, integers,
rationals, setpoint objects with value and scale, and color objects. -/
inductive PValue where
  | s (v : String)
  | i (v : Int)
  | q (v : ℚ)
  | tempObj (value : ℚ) (scale : String)
  | colorObj (hue saturation brightness : ℚ)
  deriving DecidableEq, Repr

/-- Python truthiness of a property value. -/
def PValue.truthy : PValue → Bool
  | .s v => v != ""
  | .i v => v != 0
  | .q v => v != 0
  | .tempObj _ _ => true
  | .colorObj _ _ _ => true

/-- Python truthiness of the value returned by dict.get for a string key:
None and the empty string are falsy. -/
def pyTruthyStrOpt : Option String → Bool
  | none => false
  | some s => s != ""

/-- Python expression x or 50, then x + delta, for brightness values:
falsy values are replaced by the default, and the sum requires an int. -/
def pyAddInt : PValue → Int → Except PyErr Int
  | .i n, d => .ok (n + d)
  | _, _ => .error .typeError

/-- Payload object of SetTargetTemperature: a value and a scale string. -/
structure TempObject where
  value : ℚ
  scale : String
  deriving DecidableEq, Repr

/-- Thermostat mode payload: a bare string or an object with a value field. -/
inductive ModeValue where
  | str (v : String)
  | obj (value : String)
  deriving DecidableEq, Repr

/-- The expression mode if isinstance(mode, str) else mode about the value
field: both payload forms collapse to the bare mode string. -/
def bareMode : ModeValue → String
  | .str v => v
  | .obj v => v

/-- Header of an inbound directive. -/
structure Header where
  nspace : String
  name : String
  correlationToken : Option String
  deriving DecidableEq, Repr

/-- Endpoint reference carried by an inbound directive. -/
structure EndpointRef where
  endpointId : String
  friendlyName : Option String
  deriving DecidableEq, Repr

/-- Directive payload dict: each key the handlers read, as optional field. -/
structure Payload where
  brightness : Option Int
  brightnessDelta : Option Int
  percentage : Option Int
  colorTemperatureInKelvin : Option Int
  color : Option (ℚ × ℚ × ℚ)
  targetSetpoint : Option TempObject
  thermostatMode : Option ModeValue
  deriving DecidableEq, Repr

/-- Payload with no keys set. -/
def emptyPayload : Payload := ⟨none, none, none, none, none, none, none⟩

/-- An inbound directive request, after stripping the directive wrapper. -/
structure Request where
  header : Header
  payload : Payload
  endpoint : Option EndpointRef
  deriving DecidableEq, Repr

/-- One serialized property reading. -/
structure PropertyReading where
  name : String
  nspace : String
  value : PValue
  timeOfSample : String
  uncertaintyInMilliseconds : Nat
  deriving DecidableEq, Repr

/-- Which serializeDiscovery and configuration overrides a capability class
uses: the generic AlexaInterface shape, the SceneController shape, or the
ThermostatController configuration. -/
inductive CapKind where
  | generic
  | scene
  | thermostat
  deriving DecidableEq, Repr

/-- An AlexaInterface instance: its protocol name, supported property names,
reporting flags, optional supported modes, optional deactivation flag, and
the class variant it belongs to. -/
structure Capability where
  cname : String
  props : List String
  proactivelyReported : Bool
  retrievable : Bool
  modesSupported : Option (List String)
  deactivationSupported : Option Bool
  kind : CapKind
  deriving DecidableEq, Repr

/-- The implicit identity capability added by the AlexaEndpoint constructor. -/
def identityCap : Capability := ⟨"Alexa", [], true, true, none, none, .generic⟩

def alexaPowerController : Capability :=
  ⟨"Alexa.PowerController", ["powerState"], true, true, none, none, .generic⟩

def alexaBrightnessController : Capability :=
  ⟨"Alexa.BrightnessController", ["brightness"], true, true, none, none, .generic⟩

def alexaPercentageController : Capability :=
  ⟨"Alexa.PercentageController", ["percentage"], true, true, none, none, .generic⟩

def alexaTemperatureSensor : Capability :=
  ⟨"Alexa.TemperatureSensor", ["temperature"], true, true, none, none, .generic⟩

def alexaThermostatController (modes : Option (List String)) : Capability :=
  ⟨"Alexa.ThermostatController", ["targetSetpoint", "thermostatMode"], true, true,
    modes, none, .thermostat⟩

def alexaSceneController : Capability :=
  ⟨"Alexa.SceneController", [], true, true, none, none, .scene⟩

def alexaColorController : Capability :=
  ⟨"Alexa.ColorController", ["color"], true, true, none, none, .generic⟩

def alexaColorTemperatureController : Capability :=
  ⟨"Alexa.ColorTemperatureController", ["colorTemperatureInKelvin"], true, true,
    none, none, .generic⟩

def alexaLockController : Capability :=
  ⟨"Alexa.LockController", ["lockState"], true, true, none, none, .generic⟩

def alexaContactSensor : Capability :=
  ⟨"Alexa.ContactSensor", ["detectionState"], true, true, none, none, .generic⟩

/-- Discovery serialization of one capability. -/
structure DiscoveryCap where
  itype : String
  interface : String
  version : String
  properties : Option (List String × Bool × Bool)
  configuration : Option (Bool × List String)
  supportsDeactivation : Option (Option Bool)
  deriving DecidableEq, Repr

/-- The configuration method: only the ThermostatController override returns
a configuration object, and only when modesSupported has been set; it pairs
supportScheduling, which is always false, with the supported modes. -/
def capConfiguration (c : Capability) : Option (Bool × List String) :=
  match c.kind with
  | .thermostat =>
    match c.modesSupported with
    | some ms => some (false, ms)
    | none => none
  | _ => none

/-- The serializeDiscovery method: the SceneController override always
reports supportsDeactivation and never properties; the generic shape
reports properties only when the supported list is nonempty, and a
configuration block only when the configuration method yields one. -/
def serializeDiscovery (c : Capability) : DiscoveryCap :=
  match c.kind with
  | .scene => ⟨"AlexaInterface", c.cname, "3", none, none, some c.deactivationSupported⟩
  | _ =>
    ⟨"AlexaInterface", c.cname, "3",
      if c.props.isEmpty then none
      else some (c.props, c.proactivelyReported, c.retrievable),
      capConfiguration c, none⟩

/-- One entry of the Discover response endpoints list. -/
structure DiscoveryEndpoint where
  endpointId : String
  friendlyName : String
  description : String
  manufacturerName : String
  displayCategories : List String
  capabilities : List DiscoveryCap
  deriving DecidableEq, Repr

/-- Payload of an outbound event: empty dict, error payload with type and
message, Discover response payload, or scene activation payload. -/
inductive RespPayload where
  | empty
  | error (etype : String) (message : String)
  | discover (endpoints : List DiscoveryEndpoint)
  | activation (causeType : String) (timestamp : String)
  deriving DecidableEq, Repr

/-- Header of an outbound event. -/
structure EventHeader where
  nspace : String
  name : String
  messageId : String
  payloadVersion : String
  correlationToken : Option String
  deriving DecidableEq, Repr

/-- An outbound response or error envelope. -/
structure Response where
  header : EventHeader
  payload : RespPayload
  endpoint : Option EndpointRef
  context : Option (List PropertyReading)
  deriving DecidableEq, Repr

/-- The api_message envelope builder.  The fresh uuid4 message id is passed
in as the parameter mid.  The correlation token is copied only when it is
truthy, and the request endpoint object is copied verbatim when present. -/
def api_message (request : Request) (name nspace : String) (payload : RespPayload)
    (context : Option (List PropertyReading)) (mid : String) : Response :=
  { header :=
      { nspace := nspace
        name := name
        messageId := mid
        payloadVersion := "3"
        correlationToken :=
          if pyTruthyStrOpt request.header.correlationToken then
            request.header.correlationToken
          else none }
    payload := payload
    endpoint := request.endpoint
    context := context }

/-- The api_error envelope builder: an api_message named ErrorResponse whose
payload carries the error type and message. -/
def api_error (request : Request) (nspace error_type error_message mid : String) :
    Response :=
  api_message request "ErrorResponse" nspace (.error error_type error_message) none mid

/-- The temperature_from_object unit normalization. -/
def temperature_from_object (temp_obj : TempObject) : ℚ :=
  if temp_obj.scale = "FAHRENHEIT" then (temp_obj.value - 32) / (18 / 10)
  else if temp_obj.scale = "KELVIN" then temp_obj.value - 27315 / 100
  else temp_obj.value

/-- Outcome of reading and JSON-decoding the Color field of a device record:
the key can be absent (the default empty object is decoded, giving r = g =
b = 0), hold undecodable text, or decode to an rgb triple. -/
inductive ColorField where
  | absent
  | invalid
  | rgb (r g b : Int)
  deriving DecidableEq, Repr

/-- A Domoticz device record: the fields the adapter reads, each optional. -/
structure Device where
  status : Option String
  level : Option Int
  levelNames : Option String
  levelInt : Option Int
  temp : Option ℚ
  setPoint : Option ℚ
  color : ColorField
  deriving DecidableEq, Repr

/-- A device record with no fields set. -/
def emptyDevice : Device := ⟨none, none, none, none, none, none, .absent⟩

/-- The colorsys rgb_to_hsv conversion on rationals.  Division by a zero
maximum, reachable only for negative components, raises in Python; here it
yields none, which the caller turns into an absent property. -/
def rgb_to_hsv (r g b : ℚ) : Option (ℚ × ℚ × ℚ) :=
  let maxc := max r (max g b)
  let minc := min r (min g b)
  if minc = maxc then some (0, 0, maxc)
  else if maxc = 0 then none
  else
    let rangec := maxc - minc
    let s := rangec / maxc
    let rc := (maxc - r) / rangec
    let gc := (maxc - g) / rangec
    let bc := (maxc - b) / rangec
    let h0 := if r = maxc then bc - gc
      else if g = maxc then 2 + rc - bc
      else 4 + gc - rc
    let h1 := h0 / 6
    some (h1 - (⌊h1⌋ : ℚ), s, maxc)

/-- The colorsys hsv_to_rgb conversion on rationals. -/
def hsv_to_rgb (h s v : ℚ) : ℚ × ℚ × ℚ :=
  if s = 0 then (v, v, v)
  else
    let i0 : Int := pyInt (h * 6)
    let f := h * 6 - (i0 : ℚ)
    let p := v * (1 - s)
    let q := v * (1 - s * f)
    let t := v * (1 - s * (1 - f))
    let i := i0 % 6
    if i = 0 then (v, t, p)
    else if i = 1 then (q, v, p)
    else if i = 2 then (p, v, t)
    else if i = 3 then (p, q, v)
    else if i = 4 then (t, p, v)
    else (v, p, q)

/-- The color branch of getProperty for a decoded rgb triple: components are
divided by 255, converted with rgb_to_hsv, and packaged with hue scaled to
degrees; a conversion failure is caught and yields an absent property. -/
def colorFromRgb (r g b : Int) : Option PValue :=
  match rgb_to_hsv ((r : ℚ) / 255) ((g : ℚ) / 255) ((b : ℚ) / 255) with
  | none => none
  | some (h, s, v) => some (.colorObj (h * 360) s v)

/-- The color branch of getProperty over the raw Color field. -/
def colorProperty : ColorField → Option PValue
  | .invalid => none
  | .absent => colorFromRgb 0 0 0
  | .rgb r g b => colorFromRgb r g b

/-- The thermostatMode branch of getProperty: index the pipe-separated level
names by level divided by step, uppercased; any failure, including a zero
step, a bad index, or a negative index beyond the front, yields AUTO. -/
def thermostatModeProp (d : Device) : String :=
  let names := pySplit (d.levelNames.getD "") '|'
  let li := d.levelInt.getD 10
  if li = 0 then "AUTO"
  else
    let idx := pyInt ((d.level.getD 0 : ℚ) / (li : ℚ))
    match pyIndex names idx with
    | some nm => pyUpper nm
    | none => "AUTO"

/-- The DomoticzEndpoint getProperty method, as a function of the resolved
device record: none when the device is absent, otherwise the per-name
decodings of the raw fields. -/
def domoGetProperty (dev : Option Device) (name : String) : Option PValue :=
  match dev with
  | none => none
  | some d =>
    if name = "powerState" then
      let status := d.status.getD "Off"
      some (.s (if status = "On" || status = "Open" || pyStartsWith status "Set Level"
        then "ON" else "OFF"))
    else if name = "color" then colorProperty d.color
    else if name = "brightness" || name = "percentage" then
      some (.i (d.level.getD 0))
    else if name = "temperature" then
      match d.temp with
      | none => none
      | some t => some (.tempObj t "CELSIUS")
    else if name = "targetSetpoint" then
      match d.setPoint with
      | none => none
      | some sp => some (.tempObj sp "CELSIUS")
    else if name = "thermostatMode" then some (.s (thermostatModeProp d))
    else if name = "detectionState" then
      some (.s (if d.status = some "Open" then "DETECTED" else "NOT_DETECTED"))
    else none

/-- The endpoint adapter classes registered in ENDPOINT_ADAPTERS, plus the
plain AlexaEndpoint base class. -/
inductive EndpointKind where
  | base
  | switchLight
  | blind
  | temperatureSensor
  | thermostat
  | scene
  deriving DecidableEq, Repr

/-- An endpoint instance: its adapter class, display metadata, capability
list, cookie map, backend index and lazily resolved device record. -/
structure Endpoint where
  kind : EndpointKind
  endpointId : String
  friendlyName : String
  description : String
  manufacturerName : String
  displayCategories : List String
  capabilities : List Capability
  cookies : List (String × String)
  idx : String
  device : Option Device
  deriving DecidableEq, Repr

/-- The AlexaEndpoint constructor: display metadata as given, an empty
category list and cookie map, and a capability list holding only the
implicit identity capability. -/
def mkAlexaEndpoint (endpointId friendlyName description manufacturerName : String) :
    Endpoint :=
  ⟨.base, endpointId, friendlyName, description, manufacturerName,
    [], [identityCap], [], "", none⟩

/-- The getProperty method of an endpoint: the AlexaEndpoint base class
always answers none, the DomoticzEndpoint subclasses decode the resolved
device record. -/
def getProperty (ep : Endpoint) (name : String) : Option PValue :=
  match ep.kind with
  | .base => none
  | _ => domoGetProperty ep.device name

/-- The serializeProperties method of a capability: for each supported
property name, query the owning endpoint and emit a reading only when the
value is present; the timestamp parameter stands for the sampled utcnow. -/
def serializeProperties (ep : Endpoint) (c : Capability) (now : String) :
    List PropertyReading :=
  c.props.filterMap (fun pn =>
    match getProperty ep pn with
    | none => none
    | some v => some ⟨pn, c.cname, v, now, 0⟩)

/-- The ENDPOINT_ADAPTERS registry: endpoint id prefix to adapter class. -/
def endpointAdapters : String → Option EndpointKind
  | "SwitchLight" => some .switchLight
  | "Blind" => some .blind
  | "TemperatureSensor" => some .temperatureSensor
  | "Thermostat" => some .thermostat
  | "Scene" => some .scene
  | _ => none

/-- Capability lists built by the adapter class constructors; each starts
with the implicit identity capability added by the base constructor. -/
def adapterCapabilities : EndpointKind → List Capability
  | .base => [identityCap]
  | .switchLight => [identityCap, alexaPowerController, alexaBrightnessController]
  | .blind => [identityCap, alexaPowerController, alexaPercentageController]
  | .temperatureSensor => [identityCap, alexaTemperatureSensor]
  | .thermostat => [identityCap, alexaTemperatureSensor,
      alexaThermostatController (some ["HEAT", "COOL", "AUTO", "OFF"])]
  | .scene => [identityCap, alexaSceneController]

/-- Display categories added by the adapter class constructors. -/
def adapterDisplayCategories : EndpointKind → List String
  | .temperatureSensor => ["TEMPERATURE_SENSOR"]
  | .thermostat => ["THERMOSTAT"]
  | .scene => ["SCENE"]
  | _ => []

/-- The Domoticz backend handler: the device resolution map, standing for
the device cache together with its lazy refresh, and the endpoints the
getEndpoints enumeration produces. -/
structure Handler where
  devices : String → Option Device
  endpoints : List Endpoint

/-- Python endpointId.split with separator dash and maxsplit one; a missing
separator makes the two-name unpacking raise ValueError, modelled as none. -/
def splitFirstDash (s : String) : Option (String × String) :=
  match pySplit s '-' with
  | [] => none
  | [_] => none
  | a :: rest => some (a, String.intercalate "-" rest)

/-- The Domoticz getEndpoint method: split the endpoint id into prefix and
index, look the prefix up in the adapter registry, raising on an unknown
prefix, and build the endpoint with the cached or lazily fetched device. -/
def getEndpoint (h : Handler) (req : Request) : Except PyErr Endpoint :=
  match req.endpoint with
  | none => .error .keyError
  | some er =>
    match splitFirstDash er.endpointId with
    | none => .error .valueError
    | some (pfx, idx) =>
      match endpointAdapters pfx with
      | none => .error .unknownEndpointType
      | some k =>
        .ok ⟨k, er.endpointId, er.friendlyName.getD "", "", "Domoticz",
          adapterDisplayCategories k, adapterCapabilities k, [], idx, h.devices idx⟩

/-- A call from an endpoint into the Domoticz handler mutation methods. -/
inductive BackendCall where
  | setSwitch (idx cmd : String)
  | setLevel (idx : String) (level : Int)
  | setColor (idx : String) (r g b : Int)
  | setColorTemperature (idx : String) (kelvin : Int)
  | setSetpoint (idx : String) (value : ℚ)
  | setLevelByName (idx : String) (mode : String)
  | setScene (idx cmd : String)
  deriving DecidableEq, Repr

/-- The Domoticz setLevelByName method: uppercase the requested mode, check
it against the uppercased level names, and on a hit send the level at the
index of the uppercased mode in the original names, a lookup that raises
ValueError when the stored names are not already uppercase; a missing
device record raises AttributeError.  The result is the level sent through
setLevel, none when the membership check fails and no level is sent. -/
def domoSetLevelByName (devices : String → Option Device) (idx mode : String) :
    Except PyErr (Option Int) :=
  match devices idx with
  | none => .error .attrError
  | some d =>
    let names := pySplit (d.levelNames.getD "") '|'
    if (names.map pyUpper).contains (pyUpper mode) then
      match names.findIdx? (fun n => n == pyUpper mode) with
      | some i => .ok (some ((i : Int) * (d.levelInt.getD 10)))
      | none => .error .valueError
    else .ok none

/-- The turnOn endpoint method: SwitchLight switches On, Blind switches Off,
other classes lack the method and raise AttributeError. -/
def epTurnOn (ep : Endpoint) : Except PyErr (List BackendCall) :=
  match ep.kind with
  | .switchLight => .ok [.setSwitch ep.idx "On"]
  | .blind => .ok [.setSwitch ep.idx "Off"]
  | _ => .error .attrError

/-- The turnOff endpoint method, mirror image of turnOn. -/
def epTurnOff (ep : Endpoint) : Except PyErr (List BackendCall) :=
  match ep.kind with
  | .switchLight => .ok [.setSwitch ep.idx "Off"]
  | .blind => .ok [.setSwitch ep.idx "On"]
  | _ => .error .attrError

/-- The setBrightness endpoint method, only on SwitchLight. -/
def epSetBrightness (ep : Endpoint) (value : Int) : Except PyErr (List BackendCall) :=
  match ep.kind with
  | .switchLight => .ok [.setLevel ep.idx value]
  | _ => .error .attrError

/-- The setPercentage endpoint method, only on Blind. -/
def epSetPercentage (ep : Endpoint) (value : Int) : Except PyErr (List BackendCall) :=
  match ep.kind with
  | .switchLight => .error .attrError
  | .blind => .ok [.setLevel ep.idx value]
  | _ => .error .attrError

/-- The setColor endpoint method, only on SwitchLight: scale hue and
brightness, convert to rgb, scale to 255 and truncate. -/
def epSetColor (ep : Endpoint) (h s b : ℚ) : Except PyErr (List BackendCall) :=
  match ep.kind with
  | .switchLight =>
    let rgb := hsv_to_rgb (h / 360) s (b / 100)
    .ok [.setColor ep.idx (pyInt (rgb.1 * 255)) (pyInt (rgb.2.1 * 255))
      (pyInt (rgb.2.2 * 255))]
  | _ => .error .attrError

/-- The setColorTemperature endpoint method, only on SwitchLight. -/
def epSetColorTemperature (ep : Endpoint) (kelvin : Int) :
    Except PyErr (List BackendCall) :=
  match ep.kind with
  | .switchLight => .ok [.setColorTemperature ep.idx kelvin]
  | _ => .error .attrError

/-- The setTargetSetPoint endpoint method, only on Thermostat. -/
def epSetTargetSetPoint (ep : Endpoint) (value : ℚ) : Except PyErr (List BackendCall) :=
  match ep.kind with
  | .thermostat => .ok [.setSetpoint ep.idx value]
  | _ => .error .attrError

/-- The setThermostatMode endpoint method, only on Thermostat: it forwards
the mode string unchanged to the handler setLevelByName method, whose
internal failures propagate. -/
def epSetThermostatMode (devices : String → Option Device) (ep : Endpoint)
    (mode : String) : Except PyErr (List BackendCall) :=
  match ep.kind with
  | .thermostat =>
    match domoSetLevelByName devices ep.idx mode with
    | .error e => .error e
    | .ok _ => .ok [.setLevelByName ep.idx mode]
  | _ => .error .attrError

/-- The activate endpoint method, only on Scene. -/
def epActivate (ep : Endpoint) : Except PyErr (List BackendCall) :=
  match ep.kind with
  | .scene => .ok [.setScene ep.idx "On"]
  | _ => .error .attrError

/-- The deactivate endpoint method, only on Scene. -/
def epDeactivate (ep : Endpoint) : Except PyErr (List BackendCall) :=
  match ep.kind with
  | .scene => .ok [.setScene ep.idx "Off"]
  | _ => .error .attrError

/-- A handler-group operation: handler, request, fresh message id and
sampled timestamp in, response and backend-call trace out, or a raised
exception. -/
def Operation :=
  Handler → Request → String → String → Except PyErr (Response × List BackendCall)

/-- The discovery view of one endpoint, before the emptiness filter. -/
def discoveryView (ep : Endpoint) : DiscoveryEndpoint :=
  ⟨ep.endpointId, ep.friendlyName, ep.description, ep.manufacturerName,
    ep.displayCategories, ep.capabilities.map serializeDiscovery⟩

/-- The Discover operation: serialize every enumerated endpoint, skip those
whose serialized capability list is empty, and wrap the rest. -/
def Discover_op : Operation := fun h req mid _now =>
  let discovery_endpoints := h.endpoints.filterMap (fun ep =>
    let de := discoveryView ep
    if de.capabilities.isEmpty then none else some de)
  .ok (api_message req "Discover.Response" "Alexa.Discovery"
    (.discover discovery_endpoints) none mid, [])

/-- The TurnOn operation: resolve the endpoint, turn it on, and report a
single optimistic powerState ON reading. -/
def TurnOn_op : Operation := fun h req mid now =>
  match getEndpoint h req with
  | .error e => .error e
  | .ok ep =>
    match epTurnOn ep with
    | .error e => .error e
    | .ok calls =>
      .ok (api_message req "Response" "Alexa" .empty
        (some [⟨"powerState", "Alexa.PowerController", .s "ON", now, 0⟩]) mid, calls)

/-- The TurnOff operation, mirror image of TurnOn. -/
def TurnOff_op : Operation := fun h req mid now =>
  match getEndpoint h req with
  | .error e => .error e
  | .ok ep =>
    match epTurnOff ep with
    | .error e => .error e
    | .ok calls =>
      .ok (api_message req "Response" "Alexa" .empty
        (some [⟨"powerState", "Alexa.PowerController", .s "OFF", now, 0⟩]) mid, calls)

/-- The setbrightness helper: mutate the endpoint and report the requested
brightness back, without clamping. -/
def setbrightness (req : Request) (ep : Endpoint) (brightness : Int)
    (mid now : String) : Except PyErr (Response × List BackendCall) :=
  match epSetBrightness ep brightness with
  | .error e => .error e
  | .ok calls =>
    .ok (api_message req "Response" "Alexa" .empty
      (some [⟨"brightness", "Alexa.BrightnessController", .i brightness, now, 0⟩])
      mid, calls)

/-- The SetBrightness operation: read the payload brightness, resolve the
endpoint, and delegate to the setbrightness helper. -/
def SetBrightness_op : Operation := fun h req mid now =>
  match req.payload.brightness with
  | none => .error .keyError
  | some brightness =>
    match getEndpoint h req with
    | .error e => .error e
    | .ok ep => setbrightness req ep brightness mid now

/-- The baseline read by AdjustBrightness: the current brightness property
or 50, with Python truthiness, so both an absent and a zero reading fall
back to 50. -/
def currentBrightness (ep : Endpoint) : PValue :=
  match getProperty ep "brightness" with
  | some v => if v.truthy then v else .i 50
  | none => .i 50

/-- The AdjustBrightness operation: add the payload delta to the baseline
and delegate to the setbrightness helper, without clamping. -/
def AdjustBrightness_op : Operation := fun h req mid now =>
  match req.payload.brightnessDelta with
  | none => .error .keyError
  | some delta =>
    match getEndpoint h req with
    | .error e => .error e
    | .ok ep =>
      match pyAddInt (currentBrightness ep) delta with
      | .error e => .error e
      | .ok brightness => setbrightness req ep brightness mid now

/-- The SetColor operation: read the hue, saturation and brightness triple,
mutate the endpoint, and echo the requested triple back verbatim. -/
def SetColor_op : Operation := fun h req mid now =>
  match req.payload.color with
  | none => .error .keyError
  | some c =>
    match getEndpoint h req with
    | .error e => .error e
    | .ok ep =>
      match epSetColor ep c.1 c.2.1 c.2.2 with
      | .error e => .error e
      | .ok calls =>
        .ok (api_message req "Response" "Alexa" .empty
          (some [⟨"color", "Alexa.ColorController", .colorObj c.1 c.2.1 c.2.2,
            now, 0⟩]) mid, calls)

/-- The SetColorTemperature operation. -/
def SetColorTemperature_op : Operation := fun h req mid now =>
  match req.payload.colorTemperatureInKelvin with
  | none => .error .keyError
  | some kelvin =>
    match getEndpoint h req with
    | .error e => .error e
    | .ok ep =>
      match epSetColorTemperature ep kelvin with
      | .error e => .error e
      | .ok calls =>
        .ok (api_message req "Response" "Alexa" .empty
          (some [⟨"colorTemperatureInKelvin", "Alexa.ColorTemperatureController",
            .i kelvin, now, 0⟩]) mid, calls)

/-- The Activate operation: activate the scene and answer with the scene
controller activation payload. -/
def Activate_op : Operation := fun h req mid now =>
  match getEndpoint h req with
  | .error e => .error e
  | .ok ep =>
    match epActivate ep with
    | .error e => .error e
    | .ok calls =>
      .ok (api_message req "ActivationStarted" "Alexa.SceneController"
        (.activation "VOICE_INTERACTION" now) none mid, calls)

/-- The Deactivate operation, mirror image of Activate. -/
def Deactivate_op : Operation := fun h req mid now =>
  match getEndpoint h req with
  | .error e => .error e
  | .ok ep =>
    match epDeactivate ep with
    | .error e => .error e
    | .ok calls =>
      .ok (api_message req "DeactivationStarted" "Alexa.SceneController"
        (.activation "VOICE_INTERACTION" now) none mid, calls)

/-- The SetPercentage operation: the only one that clamps, to the closed
interval from 0 to 100, before mutating and reporting. -/
def SetPercentage_op : Operation := fun h req mid now =>
  match req.payload.percentage with
  | none => .error .keyError
  | some percentage0 =>
    match getEndpoint h req with
    | .error e => .error e
    | .ok ep =>
      let percentage : Int :=
        if percentage0 < 0 then 0
        else if percentage0 > 100 then 100
        else percentage0
      match epSetPercentage ep percentage with
      | .error e => .error e
      | .ok calls =>
        .ok (api_message req "Response" "Alexa" .empty
          (some [⟨"percentage", "Alexa.PercentageController", .i percentage,
            now, 0⟩]) mid, calls)

/-- The Lock operation: no Domoticz endpoint defines a lock method, so the
hasattr guard skips the mutation and only the optimistic reading is sent. -/
def Lock_op : Operation := fun h req mid now =>
  match getEndpoint h req with
  | .error e => .error e
  | .ok _ep =>
    .ok (api_message req "Response" "Alexa" .empty
      (some [⟨"lockState", "Alexa.LockController", .s "LOCKED", now, 0⟩]) mid, [])

/-- The Unlock operation, mirror image of Lock. -/
def Unlock_op : Operation := fun h req mid now =>
  match getEndpoint h req with
  | .error e => .error e
  | .ok _ep =>
    .ok (api_message req "Response" "Alexa" .empty
      (some [⟨"lockState", "Alexa.LockController", .s "UNLOCKED", now, 0⟩]) mid, [])

/-- The SetTargetTemperature operation: when the payload carries a target
setpoint it is normalized to Celsius and sent; when it does not, the later
reference to the never-assigned local temp raises NameError. -/
def SetTargetTemperature_op : Operation := fun h req mid now =>
  match getEndpoint h req with
  | .error e => .error e
  | .ok ep =>
    match req.payload.targetSetpoint with
    | none => .error .nameError
    | some tobj =>
      let temp := temperature_from_object tobj
      match epSetTargetSetPoint ep temp with
      | .error e => .error e
      | .ok calls =>
        .ok (api_message req "Response" "Alexa" .empty
          (some [⟨"targetSetpoint", "Alexa.ThermostatController",
            .tempObj temp "CELSIUS", now, 0⟩]) mid, calls)

/-- The SetThermostatMode operation: accept the mode as a bare string or as
an object with a value field, collapse it to the bare string, dispatch that
string unchanged to the endpoint, and echo it back unchanged. -/
def SetThermostatMode_op : Operation := fun h req mid now =>
  match req.payload.thermostatMode with
  | none => .error .keyError
  | some m =>
    let mode := bareMode m
    match getEndpoint h req with
    | .error e => .error e
    | .ok ep =>
      match epSetThermostatMode h.devices ep mode with
      | .error e => .error e
      | .ok calls =>
        .ok (api_message req "Response" "Alexa" .empty
          (some [⟨"thermostatMode", "Alexa.ThermostatController", .s mode,
            now, 0⟩]) mid, calls)

/-- The ReportState operation: an unresolvable backing device yields an
ENDPOINT_UNREACHABLE error envelope; otherwise the StateReport context is
the concatenation of every capability property serialization. -/
def ReportState_op : Operation := fun h req mid now =>
  match getEndpoint h req with
  | .error e => .error e
  | .ok ep =>
    match ep.device with
    | none =>
      .ok (api_error req "Alexa" "ENDPOINT_UNREACHABLE" "Could not connect to Domoticz"
        mid, [])
    | some _ =>
      .ok (api_message req "StateReport" "Alexa" .empty
        (some (ep.capabilities.map (fun c => serializeProperties ep c now)).flatten)
        mid, [])

/-- The handler groups reachable through the attrgetter lookup on the Alexa
class.  The bare Alexa namespace itself resolves to a class that is not a
handler group and whose construction raises, which the router catch turns
into the same error envelope as an unresolved namespace. -/
inductive HandlerGroup where
  | discovery
  | powerController
  | brightnessController
  | colorController
  | colorTemperatureController
  | sceneController
  | percentageController
  | lockController
  | thermostatController
  | reportState
  deriving DecidableEq, Repr

/-- Resolution of a namespace to a handler group. -/
def resolveGroup : String → Option HandlerGroup
  | "Alexa.Discovery" => some .discovery
  | "Alexa.PowerController" => some .powerController
  | "Alexa.BrightnessController" => some .brightnessController
  | "Alexa.ColorController" => some .colorController
  | "Alexa.ColorTemperatureController" => some .colorTemperatureController
  | "Alexa.SceneController" => some .sceneController
  | "Alexa.PercentageController" => some .percentageController
  | "Alexa.LockController" => some .lockController
  | "Alexa.ThermostatController" => some .thermostatController
  | "Alexa.ReportState" => some .reportState
  | _ => none

/-- Resolution of a directive name to one of the genuine directive
operation methods of a handler group.  This table covers only the
operations themselves; the attrgetter lookup that performs the real
dispatch can also resolve dotted attribute paths and dunder names, which
resolveAttr models on top of this table. -/
def resolveOpOn : HandlerGroup → String → Option Operation
  | .discovery, "Discover" => some Discover_op
  | .powerController, "TurnOn" => some TurnOn_op
  | .powerController, "TurnOff" => some TurnOff_op
  | .brightnessController, "SetBrightness" => some SetBrightness_op
  | .brightnessController, "AdjustBrightness" => some AdjustBrightness_op
  | .colorController, "SetColor" => some SetColor_op
  | .colorTemperatureController, "SetColorTemperature" => some SetColorTemperature_op
  | .sceneController, "Activate" => some Activate_op
  | .sceneController, "Deactivate" => some Deactivate_op
  | .percentageController, "SetPercentage" => some SetPercentage_op
  | .lockController, "Lock" => some Lock_op
  | .lockController, "Unlock" => some Unlock_op
  | .thermostatController, "SetTargetTemperature" => some SetTargetTemperature_op
  | .thermostatController, "SetThermostatMode" => some SetThermostatMode_op
  | .reportState, "ReportState" => some ReportState_op
  | _, _ => none

/-- A non-envelope Python value returned by a resolvable callable that is
not a directive operation: None from a mutator, a dict from the api
method, a string from a string method, or NotImplemented from a dunder. -/
inductive PyAny where
  | pyNone
  | pyDict
  | pyStr (s : String)
  | notImplemented
  deriving DecidableEq, Repr

/-- Outcome of the inner attrgetter lookup of a directive name on a
handler-group instance, followed by calling the resolved attribute with
the request as its single argument: a genuine operation method; a
resolvable non-operation callable that accepts one argument and returns a
non-envelope value without raising; a resolvable attribute whose call
raises, for example through a mismatched arity; or an unresolvable path,
raising AttributeError inside attrgetter. -/
inductive AttrResult where
  | operation (op : Operation)
  | callNonEnvelope (v : PyAny)
  | callRaises
  | missing

/-- The inner attrgetter dispatch of AlexaSmartHomeCall.invoke.  The
instance exposes the attributes namespace, name, handler and invoke next
to its class operation methods, and attrgetter follows dotted paths into
them, so directive names that are not operations can still resolve.  The
genuine operations come from the resolveOpOn table.  A representative set
of reachable non-operation names is enumerated with the value its
one-argument call returns without raising: handler.configure stores the
request and returns None, handler.api swallows its own failure and
returns a dict, namespace.format and name.format return the receiver
string unchanged, and the object dunder for equality returns
NotImplemented on a dict argument.  The names invoke, handler.loadDevices
and handler.getEndpoints resolve to callables whose one-argument call
raises on arity.  Every remaining name stands for a path that raises
AttributeError while resolving or raises when called; both are swallowed
by the surrounding catch. -/
def resolveAttr (g : HandlerGroup) (nspace name : String) : AttrResult :=
  match resolveOpOn g name with
  | some op => .operation op
  | none =>
    if name = "handler.configure" then .callNonEnvelope .pyNone
    else if name = "handler.api" then .callNonEnvelope .pyDict
    else if name = "namespace.format" then .callNonEnvelope (.pyStr nspace)
    else if name = "name.format" then .callNonEnvelope (.pyStr name)
    else if name = "__eq__" then .callNonEnvelope .notImplemented
    else if name = "invoke" ∨ name = "handler.loadDevices"
        ∨ name = "handler.getEndpoints" then .callRaises
    else .missing

/-- What the router hands back to the caller: a protocol envelope together
with the backend-call trace, or the raw non-envelope value returned by a
resolvable non-operation callable, which the source returns as-is. -/
inductive RouteResult where
  | envelope (resp : Response) (calls : List BackendCall)
  | value (v : PyAny)
  deriving DecidableEq, Repr

/-- The special-case retargeting at the top of invoke. -/
def retarget (nspace name : String) : String :=
  if nspace = "Alexa" ∧ name = "ReportState" then "Alexa.ReportState" else nspace

/-- The AlexaSmartHomeCall.invoke method: resolve the directive name with
attrgetter and call the result with the request.  A raised exception,
during resolution or during the call, is caught and becomes the generic
INTERNAL_ERROR envelope; a non-envelope return value passes through
untouched. -/
def callInvoke (g : HandlerGroup) (nspace name : String) (h : Handler)
    (request : Request) (mid now : String) : RouteResult :=
  match resolveAttr g nspace name with
  | .operation op =>
    match op h request mid now with
    | .ok (resp, calls) => .envelope resp calls
    | .error _ =>
      .envelope (api_error request "Alexa" "INTERNAL_ERROR"
        "An unexpected error occurred while processing your request." mid) []
  | .callNonEnvelope v => .value v
  | .callRaises =>
    .envelope (api_error request "Alexa" "INTERNAL_ERROR"
      "An unexpected error occurred while processing your request." mid) []
  | .missing =>
    .envelope (api_error request "Alexa" "INTERNAL_ERROR"
      "An unexpected error occurred while processing your request." mid) []

/-- The invoke router: resolve the namespace to a handler group under the
outer catch, then delegate to the inner dispatch.  Failures on either
level become an INTERNAL_ERROR envelope with a generic message, but a
resolvable non-operation callable makes the router return its raw value. -/
def invoke (nspace name : String) (h : Handler) (request : Request)
    (mid now : String) : RouteResult :=
  match resolveGroup (retarget nspace name) with
  | none =>
    .envelope (api_error request "Alexa" "INTERNAL_ERROR"
      "An unexpected error occurred while processing your directive." mid) []
  | some g => callInvoke g (retarget nspace name) name h request mid now

/-- The handle_message entry point: unwrap the directive and route it. -/
def handle_message (h : Handler) (message : Request) (mid now : String) :
    RouteResult :=
  invoke message.header.nspace message.header.name h message mid now

/-! Concrete fixtures used by witnesses and counterexamples. -/

/-- A backend with no devices and no discovery endpoints. -/
def handlerEmpty : Handler := ⟨fun _ => none, []⟩

/-- A TurnOn request carrying a nonempty correlation token. -/
def reqTokAbc : Request :=
  ⟨⟨"Alexa.PowerController", "TurnOn", some "abc"⟩, emptyPayload, none⟩

/-- A TurnOn request carrying no correlation token. -/
def reqTokNone : Request :=
  ⟨⟨"Alexa.PowerController", "TurnOn", none⟩, emptyPayload, none⟩

/-- A TurnOn request carrying an empty correlation token. -/
def reqTokEmpty : Request :=
  ⟨⟨"Alexa.PowerController", "TurnOn", some ""⟩, emptyPayload, none⟩

/-- A switch device at level 40. -/
def devLevel40 : Device := ⟨none, some 40, none, none, none, none, .absent⟩

/-- A backend holding devLevel40 at index 7. -/
def handlerLevel40 : Handler := ⟨fun i => if i = "7" then some devLevel40 else none, []⟩

/-- A SetBrightness directive asking for brightness 150. -/
def reqBrightness150 : Request :=
  ⟨⟨"Alexa.BrightnessController", "SetBrightness", none⟩,
    ⟨some 150, none, none, none, none, none, none⟩, some ⟨"SwitchLight-7", none⟩⟩

/-- A SetPercentage directive asking for percentage 150 on a blind. -/
def reqPercentage150 : Request :=
  ⟨⟨"Alexa.PercentageController", "SetPercentage", none⟩,
    ⟨none, none, some 150, none, none, none, none⟩, some ⟨"Blind-4", none⟩⟩

/-- The endpoint getEndpoint builds for reqPercentage150 over handlerEmpty. -/
def epBlind4 : Endpoint :=
  ⟨.blind, "Blind-4", "", "", "Domoticz", [], adapterCapabilities .blind, [], "4", none⟩

/-- A Discover directive. -/
def reqDiscover : Request := ⟨⟨"Alexa.Discovery", "Discover", none⟩, emptyPayload, none⟩

/-- A backend whose enumeration holds one bare endpoint with only the
implicit identity capability. -/
def handlerBare : Handler := ⟨fun _ => none, [mkAlexaEndpoint "Bare-1" "Bare" "" "Domoticz"]⟩

/-- A ReportState directive addressed to a switch whose device is missing. -/
def reqReport9 : Request :=
  ⟨⟨"Alexa", "ReportState", none⟩, emptyPayload, some ⟨"SwitchLight-9", none⟩⟩

/-- The endpoint getEndpoint builds for reqReport9 over handlerEmpty. -/
def epSwitch9 : Endpoint :=
  ⟨.switchLight, "SwitchLight-9", "", "", "Domoticz", [],
    adapterCapabilities .switchLight, [], "9", none⟩

/-- A thermostat selector device with uppercase level names. -/
def devThermo : Device :=
  ⟨none, none, some "OFF|HEAT|COOL|AUTO", some 10, none, none, .absent⟩

/-- A backend holding devThermo at index 5. -/
def handlerThermo : Handler := ⟨fun i => if i = "5" then some devThermo else none, []⟩

/-- A SetThermostatMode directive whose mode arrives as an object with a
lowercase value field. -/
def reqModeHeat : Request :=
  ⟨⟨"Alexa.ThermostatController", "SetThermostatMode", none⟩,
    ⟨none, none, none, none, none, none, some (.obj "heat")⟩, some ⟨"Thermostat-5", none⟩⟩

/-- The endpoint getEndpoint builds for reqModeHeat over handlerThermo. -/
def epThermo5 : Endpoint :=
  ⟨.thermostat, "Thermostat-5", "", "", "Domoticz", ["THERMOSTAT"],
    adapterCapabilities .thermostat, [], "5", some devThermo⟩

/-- A switch device at level 30. -/
def devLevel30 : Device := ⟨none, some 30, none, none, none, none, .absent⟩

/-- A switch endpoint bound to devLevel30, for property serialization. -/
def epSwitch2 : Endpoint :=
  ⟨.switchLight, "SwitchLight-2", "", "", "Domoticz", [],
    adapterCapabilities .switchLight, [], "2", some devLevel30⟩

/-- A TurnOn directive addressed to a switch. -/
def reqTurnOn7 : Request :=
  ⟨⟨"Alexa.PowerController", "TurnOn", none⟩, emptyPayload, some ⟨"SwitchLight-7", none⟩⟩

/-- The endpoint getEndpoint builds for reqTurnOn7 over handlerEmpty. -/
def epSwitch7 : Endpoint :=
  ⟨.switchLight, "SwitchLight-7", "", "", "Domoticz", [],
    adapterCapabilities .switchLight, [], "7", none⟩

/-- An AdjustBrightness directive with delta 20 on a switch with no device. -/
def reqAdjust20 : Request :=
  ⟨⟨"Alexa.BrightnessController", "AdjustBrightness", none⟩,
    ⟨none, some 20, none, none, none, none, none⟩, some ⟨"SwitchLight-3", none⟩⟩

/-- The endpoint getEndpoint builds for reqAdjust20 over handlerEmpty. -/
def epSwitch3 : Endpoint :=
  ⟨.switchLight, "SwitchLight-3", "", "", "Domoticz", [],
    adapterCapabilities .switchLight, [], "3", none⟩

/-! Claims. -/

/-- C2 counterexample: a SetBrightness directive asking for brightness 150
is sent to the backend and reported back as 150, outside the claimed
interval from 0 to 100, so brightness values are not clamped. -/
theorem c2_brightness_counterexample :
    SetBrightness_op handlerLevel40 reqBrightness150 "m" "t"
      = .ok (api_message reqBrightness150 "Response" "Alexa" .empty
          (some [⟨"brightness", "Alexa.BrightnessController", .i 150, "t", 0⟩]) "m",
        [.setLevel "7" 150])
    ∧ ¬((150 : Int) ≤ 100) :=
  ⟨rfl, by decide⟩

/-- C2 amended: only SetPercentage clamps its value to the interval from 0
to 100; SetBrightness sends and reports the payload value unchanged, and
AdjustBrightness sends and reports baseline plus delta unchanged, with no
clamping on either brightness path. -/
theorem c2_amended_clamping :
    (∀ (h : Handler) (req : Request) (mid now : String) (ep : Endpoint) (p : Int),
      req.payload.percentage = some p → getEndpoint h req = .ok ep →
      ep.kind = .blind →
      ∃ v : Int, SetPercentage_op h req mid now
          = .ok (api_message req "Response" "Alexa" .empty
              (some [⟨"percentage", "Alexa.PercentageController", .i v, now, 0⟩]) mid,
            [.setLevel ep.idx v])
        ∧ 0 ≤ v ∧ v ≤ 100)
    ∧ (∀ (h : Handler) (req : Request) (mid now : String) (ep : Endpoint) (b : Int),
      req.payload.brightness = some b → getEndpoint h req = .ok ep →
      ep.kind = .switchLight →
      SetBrightness_op h req mid now
        = .ok (api_message req "Response" "Alexa" .empty
            (some [⟨"brightness", "Alexa.BrightnessController", .i b, now, 0⟩]) mid,
          [.setLevel ep.idx b]))
    ∧ (∀ (h : Handler) (req : Request) (mid now : String) (ep : Endpoint) (d c : Int),
      req.payload.brightnessDelta = some d → getEndpoint h req = .ok ep →
      ep.kind = .switchLight → currentBrightness ep = .i c →
      AdjustBrightness_op h req mid now
        = .ok (api_message req "Response" "Alexa" .empty
            (some [⟨"brightness", "Alexa.BrightnessController", .i (c + d), now, 0⟩]) mid,
          [.setLevel ep.idx (c + d)])) := by
  refine ⟨?_, ?_, ?_⟩
  · intro h req mid now ep p hp hep hk
    refine ⟨if p < 0 then 0 else if p > 100 then 100 else p, ?_, ?_, ?_⟩
    · simp [SetPercentage_op, hp, hep, epSetPercentage, hk]
    · split <;> [skip; split] <;> omega
    · split <;> [skip; split] <;> omega
  · intro h req mid now ep b hb hep hk
    simp [SetBrightness_op, hb, hep, setbrightness, epSetBrightness, hk]
  · intro h req mid now ep d c hd hep hk hc
    simp [AdjustBrightness_op, hd, hep, hc, pyAddInt, setbrightness, epSetBrightness, hk]

/-- C2 witness: SetPercentage at 150 on a blind clamps to 100. -/
theorem c2_amended_clamping_witness :
    ∃ v : Int, SetPercentage_op handlerEmpty reqPercentage150 "m" "t"
        = .ok (api_message reqPercentage150 "Response" "Alexa" .empty
            (some [⟨"percentage", "Alexa.PercentageController", .i v, "t", 0⟩]) "m",
          [.setLevel epBlind4.idx v])
      ∧ 0 ≤ v ∧ v ≤ 100 :=
  c2_amended_clamping.1 handlerEmpty reqPercentage150 "m" "t" epBlind4 150 rfl rfl rfl

/-- C3: temperature normalization always yields Celsius: a FAHRENHEIT value
v maps to (v - 32) / 1.8, a KELVIN value v maps to v - 273.15, a CELSIUS
value passes through unchanged; hence it is idempotent on Celsius input,
maps Fahrenheit 32 to 0, and maps Kelvin 273.15 to 0.  Python floats are
modelled as exact rationals. -/
theorem c3_temperature_normalization :
    (∀ v : ℚ, temperature_from_object ⟨v, "FAHRENHEIT"⟩ = (v - 32) / (18 / 10))
    ∧ (∀ v : ℚ, temperature_from_object ⟨v, "KELVIN"⟩ = v - 27315 / 100)
    ∧ (∀ v : ℚ, temperature_from_object ⟨v, "CELSIUS"⟩ = v)
    ∧ temperature_from_object ⟨32, "FAHRENHEIT"⟩ = 0
    ∧ temperature_from_object ⟨27315 / 100, "KELVIN"⟩ = 0
    ∧ (∀ v : ℚ,
      temperature_from_object ⟨temperature_from_object ⟨v, "CELSIUS"⟩, "CELSIUS"⟩
        = temperature_from_object ⟨v, "CELSIUS"⟩) := by
  refine ⟨fun v => ?_, fun v => ?_, fun v => ?_, ?_, ?_, fun v => ?_⟩ <;>
    simp [temperature_from_object]

/-- C4 counterexample: a request carrying the empty string as correlation
token is a request that carries a token, yet the response echoes none,
because the copy is guarded by Python truthiness. -/
theorem c4_token_counterexample :
    reqTokEmpty.header.correlationToken = some ""
    ∧ (api_message reqTokEmpty "Response" "Alexa" .empty none "m").header.correlationToken
        ≠ some "" :=
  ⟨rfl, by decide⟩

/-- C4 amended: for every directive whose request header carries a nonempty
correlation token, the response envelope carries the identical token; when
the request carries no token, or carries the empty string, the response
carries none. -/
theorem c4_correlation_token (req : Request) (name nspace : String)
    (payload : RespPayload) (context : Option (List PropertyReading)) (mid : String) :
    (∀ t : String, req.header.correlationToken = some t → t ≠ "" →
      (api_message req name nspace payload context mid).header.correlationToken = some t)
    ∧ (req.header.correlationToken = none →
      (api_message req name nspace payload context mid).header.correlationToken = none)
    ∧ (req.header.correlationToken = some "" →
      (api_message req name nspace payload context mid).header.correlationToken = none) := by
  refine ⟨fun t ht hne => ?_, fun h0 => ?_, fun h0 => ?_⟩
  · simp [api_message, pyTruthyStrOpt, ht, hne]
  · simp [api_message, pyTruthyStrOpt, h0]
  · simp [api_message, pyTruthyStrOpt, h0]

/-- C4 witness: a nonempty token is echoed, an absent token stays absent. -/
theorem c4_correlation_token_witness :
    (api_message reqTokAbc "Response" "Alexa" .empty none "m").header.correlationToken
        = some "abc"
    ∧ (api_message reqTokNone "Response" "Alexa" .empty none "m").header.correlationToken
        = none :=
  ⟨(c4_correlation_token reqTokAbc "Response" "Alexa" .empty none "m").1 "abc" rfl
      (by decide),
    (c4_correlation_token reqTokNone "Response" "Alexa" .empty none "m").2.1 rfl⟩

/-- C5 counterexample: an endpoint with zero capabilities besides the
implicit identity capability is not filtered out of discovery: a bare
AlexaEndpoint, whose capability list is exactly the identity capability,
appears in the Discover response. -/
theorem c5_discovery_counterexample :
    Discover_op handlerBare reqDiscover "m" "t"
      = .ok (api_message reqDiscover "Discover.Response" "Alexa.Discovery"
          (.discover [discoveryView (mkAlexaEndpoint "Bare-1" "Bare" "" "Domoticz")])
          none "m", [])
    ∧ (mkAlexaEndpoint "Bare-1" "Bare" "" "Domoticz").capabilities = [identityCap] :=
  ⟨rfl, rfl⟩

/-- C5 amended: discovery filters on the full serialized capability list,
which for endpoints built by the AlexaEndpoint constructor always contains
the implicit identity capability and is therefore never empty; an endpoint
appears in discovery output exactly when its raw capability list is
nonempty, counting the identity capability. -/
theorem c5_discovery_filter (h : Handler) (req : Request) (mid now : String) :
    ∃ resp, Discover_op h req mid now = .ok (resp, [])
    ∧ ∃ des, resp.payload = .discover des
      ∧ (∀ de, de ∈ des → ∃ ep, ep ∈ h.endpoints ∧ ep.capabilities ≠ []
          ∧ de = discoveryView ep)
      ∧ (∀ ep, ep ∈ h.endpoints → ep.capabilities ≠ [] → discoveryView ep ∈ des)
      ∧ (∀ a b c d, (mkAlexaEndpoint a b c d).capabilities = [identityCap]) := by
  refine ⟨_, rfl, _, rfl, ?_, ?_, fun a b c d => rfl⟩
  · intro de hde
    rw [List.mem_filterMap] at hde
    obtain ⟨ep, hep, hf⟩ := hde
    by_cases hc : (discoveryView ep).capabilities.isEmpty
    · rw [if_pos hc] at hf
      exact absurd hf (by simp)
    · rw [if_neg hc] at hf
      refine ⟨ep, hep, ?_, (Option.some_inj.mp hf).symm⟩
      intro hnil
      apply hc
      simp [discoveryView, hnil]
  · intro ep hep hne
    rw [List.mem_filterMap]
    refine ⟨ep, hep, ?_⟩
    rw [if_neg ?_]
    intro hc
    apply hne
    simpa [discoveryView] using hc

/-- C5 witness: the filter characterization applied to the bare backend. -/
theorem c5_discovery_filter_witness :
    ∃ resp, Discover_op handlerBare reqDiscover "m" "t" = .ok (resp, [])
    ∧ ∃ des, resp.payload = .discover des
      ∧ (∀ de, de ∈ des → ∃ ep, ep ∈ handlerBare.endpoints ∧ ep.capabilities ≠ []
          ∧ de = discoveryView ep)
      ∧ (∀ ep, ep ∈ handlerBare.endpoints → ep.capabilities ≠ [] → discoveryView ep ∈ des)
      ∧ (∀ a b c d, (mkAlexaEndpoint a b c d).capabilities = [identityCap]) :=
  c5_discovery_filter handlerBare reqDiscover "m" "t"

/-- C6: for every ReportState directive whose endpoint resolves but whose
backing device cannot be resolved, the result is an error envelope of type
ENDPOINT_UNREACHABLE, not INTERNAL_ERROR; otherwise ReportState returns a
StateReport whose context properties are the concatenation of every
capability property serialization. -/
theorem c6_report_state (h : Handler) (req : Request) (mid now : String) (ep : Endpoint)
    (hep : getEndpoint h req = .ok ep) :
    (ep.device = none →
      ReportState_op h req mid now
        = .ok (api_error req "Alexa" "ENDPOINT_UNREACHABLE"
            "Could not connect to Domoticz" mid, [])
      ∧ (api_error req "Alexa" "ENDPOINT_UNREACHABLE"
          "Could not connect to Domoticz" mid).payload
        = RespPayload.error "ENDPOINT_UNREACHABLE" "Could not connect to Domoticz")
    ∧ (∀ d, ep.device = some d →
      ReportState_op h req mid now
        = .ok (api_message req "StateReport" "Alexa" .empty
            (some (ep.capabilities.map (fun c => serializeProperties ep c now)).flatten)
            mid, [])
      ∧ (api_message req "StateReport" "Alexa" .empty
          (some (ep.capabilities.map (fun c => serializeProperties ep c now)).flatten)
          mid).header.name = "StateReport") := by
  constructor
  · intro hdev
    exact ⟨by simp [ReportState_op, hep, hdev], rfl⟩
  · intro d hdev
    exact ⟨by simp [ReportState_op, hep, hdev], rfl⟩

/-- C6 witness: ReportState on a resolved switch endpoint whose device is
missing yields the ENDPOINT_UNREACHABLE error envelope. -/
theorem c6_report_state_witness :
    ReportState_op handlerEmpty reqReport9 "m" "t"
      = .ok (api_error reqReport9 "Alexa" "ENDPOINT_UNREACHABLE"
          "Could not connect to Domoticz" "m", [])
    ∧ (api_error reqReport9 "Alexa" "ENDPOINT_UNREACHABLE"
        "Could not connect to Domoticz" "m").payload
      = RespPayload.error "ENDPOINT_UNREACHABLE" "Could not connect to Domoticz" :=
  (c6_report_state handlerEmpty reqReport9 "m" "t" epSwitch9 rfl).1 rfl

/-- C7 counterexample: SetThermostatMode with the object payload whose value
is the lowercase heat dispatches the mode string unchanged, so the backend
receives heat rather than the claimed uppercase HEAT, and the echoed
property also carries the lowercase string. -/
theorem c7_mode_counterexample :
    SetThermostatMode_op handlerThermo reqModeHeat "m" "t"
      = .ok (api_message reqModeHeat "Response" "Alexa" .empty
          (some [⟨"thermostatMode", "Alexa.ThermostatController", .s "heat", "t", 0⟩])
          "m", [.setLevelByName "5" "heat"])
    ∧ "heat" ≠ "HEAT" :=
  ⟨rfl, by decide⟩

/-- C7 amended: SetThermostatMode accepts the mode as a bare string or as an
object with a value field, collapses both to the bare mode string before
dispatch, sends that string to the backend unchanged, preserving its
original casing, and echoes the same string in the reported thermostatMode
property; the backend uppercases the mode only internally when matching the
stored level names. -/
theorem c7_mode_dispatch (h : Handler) (req : Request) (mid now : String)
    (ep : Endpoint) (m : ModeValue) (lvl : Option Int)
    (hm : req.payload.thermostatMode = some m)
    (hep : getEndpoint h req = .ok ep)
    (hk : ep.kind = .thermostat)
    (hok : domoSetLevelByName h.devices ep.idx (bareMode m) = .ok lvl) :
    SetThermostatMode_op h req mid now
      = .ok (api_message req "Response" "Alexa" .empty
          (some [⟨"thermostatMode", "Alexa.ThermostatController", .s (bareMode m),
            now, 0⟩]) mid, [.setLevelByName ep.idx (bareMode m)]) := by
  simp [SetThermostatMode_op, hm, hep, epSetThermostatMode, hk, hok]

/-- C7 witness: the amended dispatch applied to the lowercase object form. -/
theorem c7_mode_dispatch_witness :
    SetThermostatMode_op handlerThermo reqModeHeat "m" "t"
      = .ok (api_message reqModeHeat "Response" "Alexa" .empty
          (some [⟨"thermostatMode", "Alexa.ThermostatController",
            .s (bareMode (.obj "heat")), "t", 0⟩]) "m",
        [.setLevelByName epThermo5.idx (bareMode (.obj "heat"))]) :=
  c7_mode_dispatch handlerThermo reqModeHeat "m" "t" epThermo5 (.obj "heat")
    (some 10) rfl rfl rfl rfl

/-- C8: during property serialization, every emitted reading carries a
supported property name, the value the endpoint answered, the capability
namespace, the sampled timestamp and uncertainty zero; a property whose
value is absent is silently omitted, no reading with its name is emitted;
and every supported property with a present value is emitted. -/
theorem c8_serialize_properties (ep : Endpoint) (c : Capability) (now : String) :
    (∀ r, r ∈ serializeProperties ep c now →
      r.name ∈ c.props ∧ getProperty ep r.name = some r.value
      ∧ r.nspace = c.cname ∧ r.timeOfSample = now ∧ r.uncertaintyInMilliseconds = 0)
    ∧ (∀ pn, pn ∈ c.props → getProperty ep pn = none →
      ∀ r, r ∈ serializeProperties ep c now → r.name ≠ pn)
    ∧ (∀ pn v, pn ∈ c.props → getProperty ep pn = some v →
      (⟨pn, c.cname, v, now, 0⟩ : PropertyReading) ∈ serializeProperties ep c now) := by
  have hmem : ∀ r, r ∈ serializeProperties ep c now →
      r.name ∈ c.props ∧ getProperty ep r.name = some r.value
      ∧ r.nspace = c.cname ∧ r.timeOfSample = now ∧ r.uncertaintyInMilliseconds = 0 := by
    intro r hr
    rw [serializeProperties, List.mem_filterMap] at hr
    obtain ⟨pn, hpn, hf⟩ := hr
    cases hgp : getProperty ep pn with
    | none => rw [hgp] at hf; exact absurd hf (by simp)
    | some v =>
      rw [hgp] at hf
      have hrv : r = ⟨pn, c.cname, v, now, 0⟩ := (Option.some_inj.mp hf).symm
      subst hrv
      exact ⟨hpn, hgp, rfl, rfl, rfl⟩
  refine ⟨hmem, ?_, ?_⟩
  · intro pn hpn hnone r hr hname
    have h2 := (hmem r hr).2.1
    rw [hname, hnone] at h2
    exact absurd h2 (by simp)
  · intro pn v hpn hv
    rw [serializeProperties, List.mem_filterMap]
    exact ⟨pn, hpn, by rw [hv]⟩

/-- C8 witness: the brightness property of a switch at level 30 is emitted
with the capability namespace, the timestamp and uncertainty zero. -/
theorem c8_serialize_properties_witness :
    (⟨"brightness", "Alexa.BrightnessController", .i 30, "t", 0⟩ : PropertyReading)
      ∈ serializeProperties epSwitch2 alexaBrightnessController "t" :=
  (c8_serialize_properties epSwitch2 alexaBrightnessController "t").2.2
    "brightness" (.i 30) (by simp [alexaBrightnessController]) rfl

/-- C9: a TurnOn directive on a switch endpoint that resolves successfully
answers with a context holding exactly one property reading, named
powerState, in namespace Alexa.PowerController, with value ON. -/
theorem c9_turn_on_power_state (h : Handler) (req : Request) (mid now : String)
    (ep : Endpoint)
    (hep : getEndpoint h req = .ok ep) (hk : ep.kind = .switchLight) :
    TurnOn_op h req mid now
      = .ok (api_message req "Response" "Alexa" .empty
          (some [⟨"powerState", "Alexa.PowerController", .s "ON", now, 0⟩]) mid,
        [.setSwitch ep.idx "On"])
    ∧ (api_message req "Response" "Alexa" .empty
        (some [⟨"powerState", "Alexa.PowerController", .s "ON", now, 0⟩]) mid).context
      = some [⟨"powerState", "Alexa.PowerController", .s "ON", now, 0⟩] := by
  exact ⟨by simp [TurnOn_op, hep, epTurnOn, hk], rfl⟩

/-- C9 witness: TurnOn on a concrete switch endpoint. -/
theorem c9_turn_on_power_state_witness :
    TurnOn_op handlerEmpty reqTurnOn7 "m" "t"
      = .ok (api_message reqTurnOn7 "Response" "Alexa" .empty
          (some [⟨"powerState", "Alexa.PowerController", .s "ON", "t", 0⟩]) "m",
        [.setSwitch epSwitch7.idx "On"])
    ∧ (api_message reqTurnOn7 "Response" "Alexa" .empty
        (some [⟨"powerState", "Alexa.PowerController", .s "ON", "t", 0⟩]) "m").context
      = some [⟨"powerState", "Alexa.PowerController", .s "ON", "t", 0⟩] :=
  c9_turn_on_power_state handlerEmpty reqTurnOn7 "m" "t" epSwitch7 rfl rfl

/-- C10: in AdjustBrightness the baseline is 50 both when the current
brightness property is absent and when it is exactly 0, because the Python
or treats the reading 0 as falsy; in both cases the resulting brightness
sent and reported is 50 plus the delta. -/
theorem c10_adjust_brightness_baseline (h : Handler) (req : Request) (mid now : String)
    (ep : Endpoint) (d : Int)
    (hd : req.payload.brightnessDelta = some d)
    (hep : getEndpoint h req = .ok ep)
    (hk : ep.kind = .switchLight)
    (hcur : getProperty ep "brightness" = none
      ∨ getProperty ep "brightness" = some (.i 0)) :
    AdjustBrightness_op h req mid now
      = .ok (api_message req "Response" "Alexa" .empty
          (some [⟨"brightness", "Alexa.BrightnessController", .i (50 + d), now, 0⟩]) mid,
        [.setLevel ep.idx (50 + d)]) := by
  have hbase : currentBrightness ep = .i 50 := by
    rcases hcur with hc | hc <;> simp [currentBrightness, hc, PValue.truthy]
  simp [AdjustBrightness_op, hd, hep, hbase, pyAddInt, setbrightness, epSetBrightness, hk]

/-- C10 witness: AdjustBrightness with delta 20 on a switch whose device is
missing reports 70. -/
theorem c10_adjust_brightness_baseline_witness :
    AdjustBrightness_op handlerEmpty reqAdjust20 "m" "t"
      = .ok (api_message reqAdjust20 "Response" "Alexa" .empty
          (some [⟨"brightness", "Alexa.BrightnessController", .i (50 + 20), "t", 0⟩]) "m",
        [.setLevel epSwitch3.idx (50 + 20)]) :=
  c10_adjust_brightness_baseline handlerEmpty reqAdjust20 "m" "t" epSwitch3 20
    rfl rfl rfl (Or.inl rfl)

end DzSmartHome
